import Mathlib

/-!
Verification development for the halo cluster resource manager.

Shallow embedding of the command plane (src/src/manager.rs), the client
adapter (src/src/commands/manage.rs) and the startup/socket logic of the
daemon (src/src/manager.rs), together with theorems settling the spec
claims about them.
-/

/-- Modelled from the spec: the resource run-state vocabulary of the data
model (the defining module of `Resource` is not among the given sources;
the spec says the exact vocabulary is deployment-specific but includes at
least these states). The Set-managed handler never inspects this field. -/
inductive Status where
  | runningOnHome
  | runningAway
  | stopped
  | failed
  | unknown
deriving DecidableEq, Repr

/-- Modelled from the spec: the Resource data model. The defining module is
not among the given sources; the command-plane handler in
src/src/manager.rs accesses `id`, `get_managed` / `set_managed` (modelled
as the `managed` field) and `parameters`. -/
structure Resource where
  id : String
  status : Status
  managed : Bool
  parameters : List (String × String)
deriving DecidableEq, Repr

/-- The `AxumResponse` struct of src/src/commands/mod.rs: a response body
shared between client and server. -/
structure AxumResponse where
  error : Bool
  text : String
deriving DecidableEq, Repr

/-- The `ManageBody` struct of src/src/commands/mod.rs: the request body of
the Set-managed operation. -/
structure ManageBody where
  resource : String
  manage : Bool
deriving DecidableEq, Repr

/-- One character of the escaping performed by the Rust `Debug` formatting
of a string, as produced by the handler messages via `format!` with the
debug specifier. Covers the escapes relevant to the embedded program: the
double quote, the backslash and the common control characters; other
characters are passed through unchanged. -/
def rustEscapeChar (c : Char) : String :=
  if c = '"' then "\\\""
  else if c = '\\' then "\\\\"
  else if c = '\n' then "\\n"
  else if c = '\t' then "\\t"
  else if c = '\r' then "\\r"
  else String.singleton c

/-- The Rust `Debug` rendering of a string: the escaped characters wrapped
in double quotes. -/
def rustDebug (s : String) : String :=
  "\"" ++ String.join (s.data.map rustEscapeChar) ++ "\""

/-- The not-found message of `manage_resource_axum`
(src/src/manager.rs, line 160). -/
def notFoundMsg (resource : String) : String :=
  "Resource " ++ rustDebug resource ++ " not found"

/-- The already-in-requested-state message of `manage_resource_axum`
(src/src/manager.rs, lines 166-170). -/
def alreadyMsg (resource : String) (managed : Bool) : String :=
  "Resource " ++ rustDebug resource ++ " is already " ++
    (if managed then "managed" else "unmanaged")

/-- The success message of `manage_resource_axum`
(src/src/manager.rs, line 183). -/
def setMsg (resource : String) (managed : Bool) : String :=
  "Resource " ++ rustDebug resource ++ " set to be " ++
    (if managed then "managed" else "unmanaged")

/-- The effect of one loop iteration of `manage_resource_axum` on one
resource: a resource whose id matches and whose managed flag differs from
the request gets `set_managed(managed)`; every other resource is left
unchanged (src/src/manager.rs, lines 162-175). -/
def manageStep (resource : String) (managed : Bool) (res : Resource) : Resource :=
  if res.id = resource ∧ res.managed ≠ managed then
    { res with managed := managed }
  else
    res

/-- The `for res in cluster.resources()` loop of `manage_resource_axum`
(src/src/manager.rs, lines 162-175): walks the whole collection, carrying
the `error` accumulator, and mutates each matching resource whose managed
flag differs from the request. On a match the accumulator is overwritten:
with the already-message when the flags agree, with `none` otherwise. -/
def manageLoop (resource : String) (managed : Bool) :
    Option String → List Resource → Option String × List Resource
  | err, [] => (err, [])
  | err, res :: rest =>
    if res.id = resource then
      if res.managed = managed then
        let p := manageLoop resource managed (some (alreadyMsg resource managed)) rest
        (p.1, res :: p.2)
      else
        let p := manageLoop resource managed none rest
        (p.1, { res with managed := managed } :: p.2)
    else
      let p := manageLoop resource managed err rest
      (p.1, res :: p.2)

/-- The `manage_resource_axum` handler (src/src/manager.rs, lines 157-186):
starting from the not-found error, runs the loop over the cluster and turns
the final `error` accumulator into the response. The returned list is the
cluster state after the handler. -/
def manage_resource_axum (body : ManageBody) (cluster : List Resource) :
    AxumResponse × List Resource :=
  match manageLoop body.resource body.manage
      (some (notFoundMsg body.resource)) cluster with
  | (some e, cluster2) => ({ error := true, text := e }, cluster2)
  | (none, cluster2) =>
    ({ error := false, text := setMsg body.resource body.manage }, cluster2)

/-- The `is_manager_alive` handler (src/src/manager.rs, lines 149-154): no
input, fixed response. -/
def is_manager_alive : AxumResponse :=
  { error := false, text := "Manager Service is Alive" }

/-- HTTP method of a route. -/
inductive Method where
  | get
  | post
deriving DecidableEq, Repr

/-- The routing table built by `prepare_axum_app`
(src/src/manager.rs, lines 139-144): GET `/` for liveness and POST
`/manage/` for Set-managed. Axum matches these paths exactly (no implicit
trailing-slash redirect). -/
def prepare_axum_app : List (String × Method) :=
  [("/", Method.get), ("/manage/", Method.post)]

/-- An HTTP POST issued by the client adapter. -/
structure HttpPost where
  url : String
  body : ManageBody
deriving DecidableEq, Repr

/-- The `send_command` function of the client adapter
(src/src/commands/manage.rs, lines 34-48): posts a `ManageBody` to
`http://commands/manage` over the unix socket. -/
def send_command (resource : String) (manage : Bool) : HttpPost :=
  { url := "http://commands/manage",
    body := { resource := resource, manage := manage } }

/-- The `manage` subcommand (src/src/commands/manage.rs, lines 24-26). -/
def manage (resource_id : String) : HttpPost :=
  send_command resource_id true

/-- The `unmanage` subcommand (src/src/commands/manage.rs, lines 29-31). -/
def unmanage (resource_id : String) : HttpPost :=
  send_command resource_id false

/-- Characters after the first double slash of a URL: the authority and
everything following it. -/
def afterScheme : List Char → List Char
  | [] => []
  | '/' :: '/' :: rest => rest
  | _ :: rest => afterScheme rest

/-- Characters from the first slash of a list on: applied after the scheme,
the path component of the URL. -/
def fromSlash : List Char → List Char
  | [] => []
  | '/' :: rest => '/' :: rest
  | _ :: rest => fromSlash rest

/-- The path component of an http URL: everything from the first slash
after the scheme-and-authority prefix. -/
def urlPath (url : String) : String :=
  String.mk (fromSlash (afterScheme url.data))

/-- Error kinds distinguished by the socket-preparation code: the
`io::ErrorKind::NotFound` case is handled specially
(src/src/manager.rs, line 120); every other kind is abstracted. -/
inductive ErrorKind where
  | notFound
  | permissionDenied
  | otherError
deriving DecidableEq, Repr

/-- Result of a fallible io operation. -/
inductive IoResult (α : Type) where
  | ok (a : α)
  | err (kind : ErrorKind)
deriving DecidableEq, Repr

/-- Abstract token for a successfully bound unix socket listener. -/
structure UnixListener where
  deriving DecidableEq, Repr

/-- The `prepare_unix_socket` function (src/src/manager.rs, lines 117-134),
with the outcomes of the two io calls it makes passed in explicitly:
`removeFile` is the outcome of `std::fs::remove_file(addr)` and `bind` the
outcome of `UnixListener::bind(addr)`. A removal failure other than
not-found is returned at once (the bind outcome is not consulted);
otherwise the bind outcome is returned. -/
def prepare_unix_socket (removeFile : IoResult Unit)
    (bind : IoResult UnixListener) : IoResult UnixListener :=
  match removeFile with
  | .ok _ => bind
  | .err .notFound => bind
  | .err k => .err k

/-- Outcome of the daemon startup: either the process exited with a status
code before launching any service, or it is running both `server_main` and
`manager_main` with the bound listener. -/
inductive MainOutcome where
  | exited (code : Nat)
  | running (listener : UnixListener)
deriving DecidableEq, Repr

/-- The startup path of `main` in src/src/manager.rs (lines 220-254): on a
socket-preparation error the process exits with status 1 before the
command server or the monitoring loop is started; on success both services
are joined. -/
def main_startup (removeFile : IoResult Unit) (bind : IoResult UnixListener) :
    MainOutcome :=
  match prepare_unix_socket removeFile bind with
  | .ok l => .running l
  | .err _ => .exited 1

/-- The last resource of the list whose id matches, in iteration order:
the resource whose branch of the loop leaves the final value of the
`error` accumulator. -/
def lastMatch (resource : String) : List Resource → Option Resource
  | [] => none
  | res :: rest =>
    match lastMatch resource rest with
    | some r => some r
    | none => if res.id = resource then some res else none

/-! Helper lemmas -/

/-- Two strings with the same character data are equal. -/
theorem str_ext {a b : String} (h : a.data = b.data) : a = b := by
  cases a
  cases b
  exact congrArg String.mk h

/-- A list mapped to itself fixes each of its elements. -/
theorem map_fix {α : Type} {f : α → α} {l : List α} (h : l.map f = l) :
    ∀ x ∈ l, f x = x := by
  induction l with
  | nil => simp
  | cons a rest ih =>
    simp only [List.map_cons, List.cons.injEq] at h
    intro x hx
    rcases List.mem_cons.mp hx with rfl | hx2
    · exact h.1
    · exact ih h.2 x hx2

/-- The loop step keeps the id of a resource. -/
theorem manageStep_id (r : String) (m : Bool) (res : Resource) :
    (manageStep r m res).id = res.id := by
  unfold manageStep
  split <;> rfl

/-- The loop keeps the id sequence of the cluster. -/
theorem map_manageStep_ids (r : String) (m : Bool) (l : List Resource) :
    (l.map (manageStep r m)).map Resource.id = l.map Resource.id := by
  induction l with
  | nil => rfl
  | cons a rest ih => simp [manageStep_id, ih]

/-- The state component of the loop: exactly the matching resources whose
managed flag differs from the request are mutated. -/
theorem manageLoop_snd (r : String) (m : Bool) (err : Option String)
    (l : List Resource) :
    (manageLoop r m err l).2 = l.map (manageStep r m) := by
  induction l generalizing err with
  | nil => rfl
  | cons res rest ih =>
    by_cases h1 : res.id = r
    · by_cases h2 : res.managed = m
      · simp [manageLoop, manageStep, h1, h2, ih]
      · simp [manageLoop, manageStep, h1, h2, ih]
    · simp [manageLoop, manageStep, h1, ih]

/-- The error component of the loop is decided by the last matching
resource in iteration order, or keeps the accumulator when nothing
matches. -/
theorem manageLoop_fst (r : String) (m : Bool) (err : Option String)
    (l : List Resource) :
    (manageLoop r m err l).1 =
      (match lastMatch r l with
       | none => err
       | some res =>
         if res.managed = m then some (alreadyMsg r m) else none) := by
  induction l generalizing err with
  | nil => rfl
  | cons res rest ih =>
    simp only [manageLoop, lastMatch]
    cases hl : lastMatch r rest with
    | some r2 =>
      by_cases h1 : res.id = r
      · by_cases h2 : res.managed = m <;> simp [h1, h2, ih, hl]
      · simp [h1, ih, hl]
    | none =>
      by_cases h1 : res.id = r
      · by_cases h2 : res.managed = m <;> simp [h1, h2, ih, hl]
      · simp [h1, ih, hl]

/-- No match in the list means no resource carries the id. -/
theorem lastMatch_eq_none_iff (r : String) (l : List Resource) :
    lastMatch r l = none ↔ ∀ res ∈ l, res.id ≠ r := by
  induction l with
  | nil => simp [lastMatch]
  | cons res rest ih =>
    rw [lastMatch]
    cases hl : lastMatch r rest with
    | some r2 =>
      simp only [List.mem_cons]
      constructor
      · intro h
        cases h
      · intro h
        have h2 : lastMatch r rest = none :=
          ih.mpr (fun x hx => h x (Or.inr hx))
        rw [hl] at h2
        cases h2
    | none =>
      rw [hl] at ih
      by_cases h1 : res.id = r
      · simp only [if_pos h1, List.mem_cons]
        constructor
        · intro h
          cases h
        · intro h
          exact absurd h1 (h res (Or.inl rfl))
      · simp only [if_neg h1, List.mem_cons]
        constructor
        · intro _ x hx
          rcases hx with rfl | hx2
          · exact h1
          · exact (ih.mp rfl) x hx2
        · intro _
          trivial

/-- A found last match belongs to the list and carries the id. -/
theorem lastMatch_mem {r : String} {l : List Resource} {res : Resource}
    (h : lastMatch r l = some res) : res ∈ l ∧ res.id = r := by
  induction l with
  | nil => cases h
  | cons x rest ih =>
    rw [lastMatch] at h
    cases hl : lastMatch r rest with
    | some r2 =>
      rw [hl] at h
      have hr : r2 = res := by
        injection h
      obtain ⟨hmem, hid⟩ := ih (hr ▸ hl)
      exact ⟨List.mem_cons_of_mem x hmem, hid⟩
    | none =>
      rw [hl] at h
      by_cases h1 : x.id = r
      · rw [if_pos h1] at h
        have hr : x = res := by
          injection h
        exact ⟨hr ▸ List.mem_cons_self x rest, hr ▸ h1⟩
      · rw [if_neg h1] at h
        cases h

/-- With cluster-unique ids, two resources of the list with the same id
are the same resource. -/
theorem nodup_id_unique {l : List Resource}
    (h : (l.map Resource.id).Nodup) {x y : Resource}
    (hx : x ∈ l) (hy : y ∈ l) (hxy : x.id = y.id) : x = y :=
  List.inj_on_of_nodup_map h hx hy hxy

/-- With cluster-unique ids, a member carrying the id is the last match. -/
theorem lastMatch_of_nodup {l : List Resource}
    (h : (l.map Resource.id).Nodup) {r : String} {res : Resource}
    (hmem : res ∈ l) (hid : res.id = r) : lastMatch r l = some res := by
  cases hl : lastMatch r l with
  | none =>
    exact absurd hid ((lastMatch_eq_none_iff r l).mp hl res hmem)
  | some r2 =>
    obtain ⟨hm2, hid2⟩ := lastMatch_mem hl
    rw [nodup_id_unique h hm2 hmem (hid2.trans hid.symm)]

/-- When every resource carrying the id already has the requested flag, the
loop mutates nothing. -/
theorem map_manageStep_eq_self {l : List Resource} {r : String} {m : Bool}
    (h : ∀ x ∈ l, x.id = r → x.managed = m) :
    l.map (manageStep r m) = l := by
  induction l with
  | nil => rfl
  | cons a rest ih =>
    rw [List.map_cons, ih (fun x hx hid => h x (List.mem_cons_of_mem a hx) hid)]
    congr 1
    unfold manageStep
    by_cases h1 : a.id = r
    · simp [h1, h a (List.mem_cons_self a rest) h1]
    · simp [h1]

/-- Closed form of the Set-managed handler: the response is decided by the
last matching resource, and the resulting cluster state applies the loop
step to every resource. -/
theorem manage_resource_axum_eq (body : ManageBody) (cluster : List Resource) :
    manage_resource_axum body cluster =
      ((match lastMatch body.resource cluster with
        | none => { error := true, text := notFoundMsg body.resource }
        | some res =>
          if res.managed = body.manage then
            { error := true, text := alreadyMsg body.resource body.manage }
          else
            { error := false, text := setMsg body.resource body.manage }),
       cluster.map (manageStep body.resource body.manage)) := by
  have h1 := manageLoop_fst body.resource body.manage
    (some (notFoundMsg body.resource)) cluster
  have h2 := manageLoop_snd body.resource body.manage
    (some (notFoundMsg body.resource)) cluster
  unfold manage_resource_axum
  rcases hp : manageLoop body.resource body.manage
    (some (notFoundMsg body.resource)) cluster with ⟨e, cl⟩
  rw [hp] at h1 h2
  simp only at h1 h2
  subst h2
  cases hl : lastMatch body.resource cluster with
  | none =>
    rw [hl] at h1
    simp only at h1
    subst h1
    rfl
  | some res =>
    rw [hl] at h1
    simp only at h1
    by_cases hm : res.managed = body.manage
    · rw [if_pos hm] at h1
      subst h1
      simp [hm]
    · rw [if_neg hm] at h1
      subst h1
      simp [hm]

/-! Claim theorems -/

/-- C1: For a Set-managed request, with resource ids unique in the cluster,
the response has error true iff the handler did not change state (unknown
id, or the matched resource already carries the requested flag); when the
match differs, the handler sets the managed flag to the requested value and
returns error false. -/
theorem C1_set_managed_error_iff_unchanged (body : ManageBody)
    (cluster : List Resource) (hids : (cluster.map Resource.id).Nodup) :
    ((manage_resource_axum body cluster).1.error = true ↔
      (manage_resource_axum body cluster).2 = cluster) ∧
    ((∀ res ∈ cluster, res.id ≠ body.resource) →
      (manage_resource_axum body cluster).1.error = true) ∧
    (∀ res ∈ cluster, res.id = body.resource → res.managed = body.manage →
      (manage_resource_axum body cluster).1.error = true) ∧
    (∀ res ∈ cluster, res.id = body.resource → res.managed ≠ body.manage →
      (manage_resource_axum body cluster).1.error = false ∧
      (manage_resource_axum body cluster).2 =
        cluster.map (manageStep body.resource body.manage) ∧
      manageStep body.resource body.manage res =
        { res with managed := body.manage }) := by
  rw [manage_resource_axum_eq]
  refine ⟨?_, ?_, ?_, ?_⟩
  · cases hl : lastMatch body.resource cluster with
    | none =>
      have hmap : cluster.map (manageStep body.resource body.manage) = cluster :=
        map_manageStep_eq_self (fun x hx hid =>
          absurd hid ((lastMatch_eq_none_iff _ _).mp hl x hx))
      simp [hmap]
    | some res =>
      obtain ⟨hmem, hid⟩ := lastMatch_mem hl
      by_cases hm : res.managed = body.manage
      · have hmap : cluster.map (manageStep body.resource body.manage) = cluster :=
          map_manageStep_eq_self (fun x hx hxid =>
            (nodup_id_unique hids hx hmem (hxid.trans hid.symm)) ▸ hm)
        simp [hm, hmap]
      · have hne : cluster.map (manageStep body.resource body.manage) ≠ cluster := by
          intro he
          have hfix := map_fix he res hmem
          unfold manageStep at hfix
          rw [if_pos ⟨hid, hm⟩] at hfix
          have hflag : body.manage = res.managed := congrArg Resource.managed hfix
          exact hm hflag.symm
        simp [hm, hne]
  · intro h
    rw [(lastMatch_eq_none_iff _ _).mpr h]
  · intro res hmem hid hm
    rw [lastMatch_of_nodup hids hmem hid]
    simp [hm]
  · intro res hmem hid hm
    rw [lastMatch_of_nodup hids hmem hid]
    refine ⟨by simp [hm], by simp, ?_⟩
    unfold manageStep
    rw [if_pos ⟨hid, hm⟩]

/-- Witness for C1: a one-resource cluster with `db1` managed; the request
to unmanage it succeeds and changes state. -/
theorem C1_set_managed_error_iff_unchanged_witness :
    (([⟨"db1", Status.runningOnHome, true, []⟩] :
        List Resource).map Resource.id).Nodup ∧
    ((manage_resource_axum ⟨"db1", false⟩
        [⟨"db1", Status.runningOnHome, true, []⟩]).1.error = true ↔
      (manage_resource_axum ⟨"db1", false⟩
        [⟨"db1", Status.runningOnHome, true, []⟩]).2 =
        [⟨"db1", Status.runningOnHome, true, []⟩]) :=
  ⟨by decide,
   (C1_set_managed_error_iff_unchanged ⟨"db1", false⟩
     [⟨"db1", Status.runningOnHome, true, []⟩] (by decide)).1⟩

/-- C4: A Set-managed request for an id matching no resource returns error
true and leaves the cluster state exactly as it was. -/
theorem C4_not_found_no_mutation (body : ManageBody) (cluster : List Resource)
    (h : ∀ res ∈ cluster, res.id ≠ body.resource) :
    manage_resource_axum body cluster =
      ({ error := true, text := notFoundMsg body.resource }, cluster) := by
  rw [manage_resource_axum_eq]
  rw [(lastMatch_eq_none_iff _ _).mpr h]
  rw [map_manageStep_eq_self (fun x hx hid => absurd hid (h x hx))]

/-- Witness for C4: requesting `ghost` against a one-resource cluster. -/
theorem C4_not_found_no_mutation_witness :
    (∀ res ∈ ([⟨"db1", Status.runningOnHome, true, []⟩] : List Resource),
        res.id ≠ "ghost") ∧
    manage_resource_axum ⟨"ghost", true⟩
        [⟨"db1", Status.runningOnHome, true, []⟩] =
      ({ error := true, text := notFoundMsg "ghost" },
       [⟨"db1", Status.runningOnHome, true, []⟩]) :=
  ⟨by decide,
   C4_not_found_no_mutation ⟨"ghost", true⟩
     [⟨"db1", Status.runningOnHome, true, []⟩] (by decide)⟩

/-- C9: The handler scans the whole collection: every resource whose id
matches and whose managed flag differs from the request is mutated, and the
reported error is decided by the last matching resource in iteration
order. -/
theorem C9_whole_scan_last_match_decides (body : ManageBody)
    (cluster : List Resource) (res : Resource)
    (h : lastMatch body.resource cluster = some res) :
    (manage_resource_axum body cluster).2 =
      cluster.map (manageStep body.resource body.manage) ∧
    ((manage_resource_axum body cluster).1.error = true ↔
      res.managed = body.manage) := by
  rw [manage_resource_axum_eq, h]
  refine ⟨rfl, ?_⟩
  by_cases hm : res.managed = body.manage <;> simp [hm]

/-- Witness for C9: two resources share the id `a`; the first (differing)
one is mutated, yet the response is the error decided by the second. -/
theorem C9_whole_scan_last_match_decides_witness :
    lastMatch "a"
        [⟨"a", Status.unknown, false, []⟩, ⟨"a", Status.unknown, true, []⟩] =
      some ⟨"a", Status.unknown, true, []⟩ ∧
    (manage_resource_axum ⟨"a", true⟩
        [⟨"a", Status.unknown, false, []⟩,
         ⟨"a", Status.unknown, true, []⟩]).2 =
      ([⟨"a", Status.unknown, false, []⟩,
        ⟨"a", Status.unknown, true, []⟩] : List Resource).map
        (manageStep "a" true) ∧
    ((manage_resource_axum ⟨"a", true⟩
        [⟨"a", Status.unknown, false, []⟩,
         ⟨"a", Status.unknown, true, []⟩]).1.error = true ↔
      (⟨"a", Status.unknown, true, []⟩ : Resource).managed = true) :=
  ⟨by decide,
   (C9_whole_scan_last_match_decides ⟨"a", true⟩
     [⟨"a", Status.unknown, false, []⟩, ⟨"a", Status.unknown, true, []⟩]
     ⟨"a", Status.unknown, true, []⟩ (by decide)).1,
   (C9_whole_scan_last_match_decides ⟨"a", true⟩
     [⟨"a", Status.unknown, false, []⟩, ⟨"a", Status.unknown, true, []⟩]
     ⟨"a", Status.unknown, true, []⟩ (by decide)).2⟩

/-- C7: When the daemon reaches the bind step (file removal succeeded or
reported not-found) and the bind fails, startup exits with status 1 and no
service is started. -/
theorem C7_bind_failure_exits (removeFile : IoResult Unit) (k : ErrorKind)
    (h : removeFile = .ok () ∨ removeFile = .err .notFound) :
    main_startup removeFile (.err k) = .exited 1 ∧
    (1 : Nat) ≠ 0 ∧
    ∀ l : UnixListener,
      main_startup removeFile (.err k) ≠ MainOutcome.running l := by
  rcases h with rfl | rfl
  · exact ⟨rfl, one_ne_zero, fun l hc => by cases hc⟩
  · exact ⟨rfl, one_ne_zero, fun l hc => by cases hc⟩

/-- Witness for C7: successful removal, failed bind. -/
theorem C7_bind_failure_exits_witness :
    main_startup (IoResult.ok ()) (IoResult.err ErrorKind.otherError) =
      MainOutcome.exited 1 ∧
    main_startup (IoResult.ok ()) (IoResult.err ErrorKind.otherError) ≠
      MainOutcome.running ⟨⟩ :=
  ⟨(C7_bind_failure_exits (IoResult.ok ()) ErrorKind.otherError (Or.inl rfl)).1,
   (C7_bind_failure_exits (IoResult.ok ()) ErrorKind.otherError
     (Or.inl rfl)).2.2 ⟨⟩⟩

/-- C10: Socket preparation first removes any existing file at the socket
path; a successful or not-found removal proceeds to the bind, while any
other removal failure is returned as the result without consulting the
bind outcome (so the daemon then exits with status 1). -/
theorem C10_remove_before_bind (k : ErrorKind) (h : k ≠ ErrorKind.notFound)
    (b b2 : IoResult UnixListener) :
    prepare_unix_socket (.ok ()) b = b ∧
    prepare_unix_socket (.err .notFound) b = b ∧
    prepare_unix_socket (.err k) b = .err k ∧
    prepare_unix_socket (.err k) b = prepare_unix_socket (.err k) b2 ∧
    main_startup (.err k) b = .exited 1 := by
  cases k with
  | notFound => exact absurd rfl h
  | permissionDenied => exact ⟨rfl, rfl, rfl, rfl, rfl⟩
  | otherError => exact ⟨rfl, rfl, rfl, rfl, rfl⟩

/-- Witness for C10: a permission-denied removal failure with two distinct
bind outcomes. -/
theorem C10_remove_before_bind_witness :
    prepare_unix_socket (.ok ()) (IoResult.ok ⟨⟩) = IoResult.ok ⟨⟩ ∧
    prepare_unix_socket (.err .notFound) (IoResult.ok ⟨⟩) = IoResult.ok ⟨⟩ ∧
    prepare_unix_socket (.err .permissionDenied) (IoResult.ok ⟨⟩) =
      IoResult.err ErrorKind.permissionDenied ∧
    prepare_unix_socket (.err .permissionDenied) (IoResult.ok ⟨⟩) =
      prepare_unix_socket (.err .permissionDenied)
        (IoResult.err ErrorKind.otherError) ∧
    main_startup (.err .permissionDenied) (IoResult.ok ⟨⟩) =
      MainOutcome.exited 1 :=
  C10_remove_before_bind ErrorKind.permissionDenied (by decide)
    (IoResult.ok ⟨⟩) (IoResult.err ErrorKind.otherError)

/-- C8: The liveness handler takes no input, reports error false with the
fixed alive message, and is served on the read path `/`. -/
theorem C8_liveness_fixed_response :
    is_manager_alive.error = false ∧
    is_manager_alive.text = "Manager Service is Alive" ∧
    ("/", Method.get) ∈ prepare_axum_app :=
  ⟨rfl, rfl, by simp [prepare_axum_app]⟩

/-- C6: The manage and unmanage subcommands build the Set-managed write
with the manage field true and false respectively, but post it to the path
`/manage`, which is not among the daemon's routes; the daemon serves the
Set-managed write only at `/manage/`. -/
theorem C6_client_path_differs_from_route :
    (manage "db1").body.manage = true ∧
    (unmanage "db1").body.manage = false ∧
    (manage "db1").body.resource = "db1" ∧
    unmanage "db1" = send_command "db1" false ∧
    urlPath (manage "db1").url = "/manage" ∧
    ("/manage/", Method.post) ∈ prepare_axum_app ∧
    ("/manage", Method.post) ∉ prepare_axum_app ∧
    ("/manage", Method.get) ∉ prepare_axum_app := by
  refine ⟨rfl, rfl, rfl, rfl, by decide, by simp [prepare_axum_app], ?_, ?_⟩
  · decide
  · decide

/-- The already-message contains the word already. -/
theorem alreadyMsg_contains_already (r : String) (m : Bool) :
    ∃ s t : List Char,
      (alreadyMsg r m).data = s ++ ("already" : String).data ++ t := by
  refine ⟨("Resource " ++ rustDebug r ++ " is ").data,
          (" " ++ (if m then "managed" else "unmanaged")).data, ?_⟩
  have hIA : (" is already " : String).data =
      (" is " : String).data ++
        (("already" : String).data ++ (" " : String).data) := rfl
  cases m <;> simp [alreadyMsg, String.data_append, hIA, List.append_assoc]

/-- C3: With unique ids, invoking Set-managed twice with the same body,
starting from a resource whose flag differs from the request, yields
success then error, the error text contains the word already, and the state
after both calls equals the state after the first call. -/
theorem C3_success_then_already_error (body : ManageBody)
    (cluster : List Resource) (hids : (cluster.map Resource.id).Nodup)
    (res : Resource) (hmem : res ∈ cluster) (hid : res.id = body.resource)
    (hdiff : res.managed ≠ body.manage) :
    (manage_resource_axum body cluster).1.error = false ∧
    (manage_resource_axum body
        (manage_resource_axum body cluster).2).1.error = true ∧
    (∃ s t : List Char,
      ((manage_resource_axum body
          (manage_resource_axum body cluster).2).1.text).data =
        s ++ ("already" : String).data ++ t) ∧
    (manage_resource_axum body (manage_resource_axum body cluster).2).2 =
      (manage_resource_axum body cluster).2 := by
  have hl1 : lastMatch body.resource cluster = some res :=
    lastMatch_of_nodup hids hmem hid
  have hstep : manageStep body.resource body.manage res =
      { res with managed := body.manage } := by
    unfold manageStep
    rw [if_pos ⟨hid, hdiff⟩]
  have hsnd1 : (manage_resource_axum body cluster).2 =
      cluster.map (manageStep body.resource body.manage) := by
    rw [manage_resource_axum_eq]
  have hids1 :
      ((cluster.map (manageStep body.resource body.manage)).map
        Resource.id).Nodup := by
    rw [map_manageStep_ids]
    exact hids
  have hmem1 : ({ res with managed := body.manage } : Resource) ∈
      cluster.map (manageStep body.resource body.manage) := by
    rw [← hstep]
    exact List.mem_map_of_mem _ hmem
  have hid1 : ({ res with managed := body.manage } : Resource).id =
      body.resource := hid
  have hl2 : lastMatch body.resource
      (cluster.map (manageStep body.resource body.manage)) =
      some { res with managed := body.manage } :=
    lastMatch_of_nodup hids1 hmem1 hid1
  have hmap1 : (cluster.map (manageStep body.resource body.manage)).map
      (manageStep body.resource body.manage) =
      cluster.map (manageStep body.resource body.manage) :=
    map_manageStep_eq_self (fun x hx hxid => by
      have hxeq : x = { res with managed := body.manage } :=
        nodup_id_unique hids1 hx hmem1 (hxid.trans hid1.symm)
      rw [hxeq])
  have herr1 : (manage_resource_axum body cluster).1.error = false := by
    rw [manage_resource_axum_eq, hl1]
    simp [hdiff]
  refine ⟨herr1, ?_, ?_, ?_⟩
  · rw [hsnd1, manage_resource_axum_eq, hl2]
    simp
  · rw [hsnd1, manage_resource_axum_eq, hl2]
    simp only [Prod.fst]
    rw [if_pos trivial]
    exact alreadyMsg_contains_already body.resource body.manage
  · rw [hsnd1, manage_resource_axum_eq, hl2]
    simp [hmap1]

/-- Witness for C3: a one-resource cluster with `db1` managed; unmanaging
twice gives success then error and the state stays at the first result. -/
theorem C3_success_then_already_error_witness :
    (manage_resource_axum ⟨"db1", false⟩
        [⟨"db1", Status.runningOnHome, true, []⟩]).1.error = false ∧
    (manage_resource_axum ⟨"db1", false⟩
        (manage_resource_axum ⟨"db1", false⟩
          [⟨"db1", Status.runningOnHome, true, []⟩]).2).1.error = true ∧
    (manage_resource_axum ⟨"db1", false⟩
        (manage_resource_axum ⟨"db1", false⟩
          [⟨"db1", Status.runningOnHome, true, []⟩]).2).2 =
      (manage_resource_axum ⟨"db1", false⟩
        [⟨"db1", Status.runningOnHome, true, []⟩]).2 :=
  ⟨(C3_success_then_already_error ⟨"db1", false⟩
      [⟨"db1", Status.runningOnHome, true, []⟩] (by decide)
      ⟨"db1", Status.runningOnHome, true, []⟩ (by decide) rfl
      (by decide)).1,
   (C3_success_then_already_error ⟨"db1", false⟩
      [⟨"db1", Status.runningOnHome, true, []⟩] (by decide)
      ⟨"db1", Status.runningOnHome, true, []⟩ (by decide) rfl
      (by decide)).2.1,
   (C3_success_then_already_error ⟨"db1", false⟩
      [⟨"db1", Status.runningOnHome, true, []⟩] (by decide)
      ⟨"db1", Status.runningOnHome, true, []⟩ (by decide) rfl
      (by decide)).2.2.2⟩

/-- For an id whose debug rendering is plain quoting, the already-message
matches the template of the spec scenarios. -/
theorem alreadyMsg_plain (rid : String)
    (hq : rustDebug rid = "\"" ++ rid ++ "\"") :
    alreadyMsg rid true = "Resource \"" ++ rid ++ "\" is already managed" := by
  apply str_ext
  have h1 : ("Resource \"" : String).data =
      ("Resource " : String).data ++ ("\"" : String).data := rfl
  have h2 : ("\" is already managed" : String).data =
      ("\"" : String).data ++
        ((" is already " : String).data ++ ("managed" : String).data) := rfl
  simp [alreadyMsg, hq, String.data_append, h1, h2, List.append_assoc]

/-- For an id whose debug rendering is plain quoting, the success message
matches the template of the spec scenarios. -/
theorem setMsg_plain (rid : String)
    (hq : rustDebug rid = "\"" ++ rid ++ "\"") :
    setMsg rid false = "Resource \"" ++ rid ++ "\" set to be unmanaged" := by
  apply str_ext
  have h1 : ("Resource \"" : String).data =
      ("Resource " : String).data ++ ("\"" : String).data := rfl
  have h2 : ("\" set to be unmanaged" : String).data =
      ("\"" : String).data ++
        ((" set to be " : String).data ++ ("unmanaged" : String).data) := rfl
  simp [setMsg, hq, String.data_append, h1, h2, List.append_assoc]

/-- For an id whose debug rendering is plain quoting, the not-found message
matches the template of the spec scenarios. -/
theorem notFoundMsg_plain (rid : String)
    (hq : rustDebug rid = "\"" ++ rid ++ "\"") :
    notFoundMsg rid = "Resource \"" ++ rid ++ "\" not found" := by
  apply str_ext
  have h1 : ("Resource \"" : String).data =
      ("Resource " : String).data ++ ("\"" : String).data := rfl
  have h2 : ("\" not found" : String).data =
      ("\"" : String).data ++ (" not found" : String).data := rfl
  simp [notFoundMsg, hq, String.data_append, h1, h2, List.append_assoc]

/-- C5: With unique ids and a plainly quoted id, the three scenario
responses follow the exact templates: already managed (error), set to be
unmanaged (success), not found (error). -/
theorem C5_scenario_texts (rid : String) (cluster : List Resource)
    (hids : (cluster.map Resource.id).Nodup)
    (hq : rustDebug rid = "\"" ++ rid ++ "\"") :
    (∀ res ∈ cluster, res.id = rid → res.managed = true →
      (manage_resource_axum ⟨rid, true⟩ cluster).1 =
        { error := true,
          text := "Resource \"" ++ rid ++ "\" is already managed" }) ∧
    (∀ res ∈ cluster, res.id = rid → res.managed = true →
      (manage_resource_axum ⟨rid, false⟩ cluster).1 =
        { error := false,
          text := "Resource \"" ++ rid ++ "\" set to be unmanaged" }) ∧
    ((∀ res ∈ cluster, res.id ≠ rid) →
      (manage_resource_axum ⟨rid, true⟩ cluster).1 =
        { error := true, text := "Resource \"" ++ rid ++ "\" not found" }) := by
  refine ⟨?_, ?_, ?_⟩
  · intro res hmem hid hm
    have hl : lastMatch rid cluster = some res :=
      lastMatch_of_nodup hids hmem hid
    rw [manage_resource_axum_eq]
    dsimp only
    rw [hl]
    dsimp only
    rw [if_pos hm, alreadyMsg_plain rid hq]
  · intro res hmem hid hm
    have hl : lastMatch rid cluster = some res :=
      lastMatch_of_nodup hids hmem hid
    have hdiff : ¬res.managed = false := by
      rw [hm]
      decide
    rw [manage_resource_axum_eq]
    dsimp only
    rw [hl]
    dsimp only
    rw [if_neg hdiff, setMsg_plain rid hq]
  · intro h
    have hl : lastMatch rid cluster = none :=
      (lastMatch_eq_none_iff rid cluster).mpr h
    rw [manage_resource_axum_eq]
    dsimp only
    rw [hl, notFoundMsg_plain rid hq]

/-- Witness for C5: scenarios against a one-resource cluster holding a
managed `db1`, with `ghost` as the unknown id. -/
theorem C5_scenario_texts_witness :
    (manage_resource_axum ⟨"db1", true⟩
        [⟨"db1", Status.runningOnHome, true, []⟩]).1 =
      { error := true, text := "Resource \"db1\" is already managed" } ∧
    (manage_resource_axum ⟨"db1", false⟩
        [⟨"db1", Status.runningOnHome, true, []⟩]).1 =
      { error := false, text := "Resource \"db1\" set to be unmanaged" } ∧
    (manage_resource_axum ⟨"ghost", true⟩
        [⟨"db1", Status.runningOnHome, true, []⟩]).1 =
      { error := true, text := "Resource \"ghost\" not found" } :=
  ⟨((C5_scenario_texts "db1" [⟨"db1", Status.runningOnHome, true, []⟩]
      (by decide) (by decide)).1
      ⟨"db1", Status.runningOnHome, true, []⟩ (by decide) rfl rfl).trans
    (by decide),
   ((C5_scenario_texts "db1" [⟨"db1", Status.runningOnHome, true, []⟩]
      (by decide) (by decide)).2.1
      ⟨"db1", Status.runningOnHome, true, []⟩ (by decide) rfl rfl).trans
    (by decide),
   ((C5_scenario_texts "ghost" [⟨"db1", Status.runningOnHome, true, []⟩]
      (by decide) (by decide)).2.2 (by decide)).trans
    (by decide)⟩
